import Mathlib

/-!
Shallow embedding of the medical-record PDF table extractor
(`pdf_table_extractor.py`): page-specification parsing, multi-page table
merging, record encoding into SQL insert statements, and the per-page /
per-document failure-isolation orchestration.  External collaborators
(the PDF rasterizer and the vision table recognizer) are modelled as
function parameters returning `Option` values, matching the source code's
treatment of them as calls that either yield a value or are skipped.
-/

namespace PdfTableExtractor

/-- An extracted table as built by `extract_table_from_image`: the dict
`{'table_name': ..., 'headers': ..., 'rows': ...}` always carries all
three keys, so it is modelled as a structure. -/
structure TableData where
  table_name : String
  headers : List String
  rows : List (List String)
deriving DecidableEq, Repr

/-- A parsed page item, mirroring the source's "int or list of ints"
convention used in `page_numbers`: a single page or a page group. -/
inductive PageItem where
  | single (page : Int)
  | group (pages : List Int)
deriving DecidableEq, Repr

/-! ### Python string primitives used by the source -/

/-- Whitespace characters stripped by Python's `str.strip()` (ASCII part,
which covers every input the program builds). -/
def isPyWhitespace (c : Char) : Bool :=
  c = ' ' || c = '\t' || c = '\n' || c = '\r' || c = '\x0b' || c = '\x0c'

/-- Python `str.strip()`: drop leading and trailing whitespace. -/
def pyStrip (s : String) : String :=
  ⟨((s.data.dropWhile isPyWhitespace).reverse.dropWhile isPyWhitespace).reverse⟩

/-- Python `str.replace(c, '')`: remove every occurrence of character `c`. -/
def pyRemoveChar (c : Char) (s : String) : String :=
  ⟨s.data.filter (fun x => x ≠ c)⟩

/-- Split a character list on a separator character, keeping empty
fields, as Python `str.split(c)` does. -/
def splitOnChar (c : Char) : List Char → List (List Char)
  | [] => [[]]
  | x :: rest =>
    match splitOnChar c rest with
    | [] => [[]]
    | h :: t => if x = c then [] :: h :: t else (x :: h) :: t

/-- Python `s.split(c)` for a one-character separator. -/
def pySplit (c : Char) (s : String) : List String :=
  (splitOnChar c s.data).map (fun l => ⟨l⟩)

/-- Python `sep.join(parts)`. -/
def joinWith (sep : String) : List String → String
  | [] => ""
  | [x] => x
  | x :: y :: rest => x ++ sep ++ joinWith sep (y :: rest)

/-- Python `c in s` for a character `c`. -/
def pyContains (s : String) (c : Char) : Bool :=
  s.data.contains c

/-- Python `s.startswith('#')`. -/
def startsWithHash (s : String) : Bool :=
  match s.data with
  | c :: _ => c = '#'
  | [] => false

/-- Numeric value of a list of decimal digit characters. -/
def digitsVal (l : List Char) : Nat :=
  l.foldl (fun a c => 10 * a + (c.toNat - 48)) 0

/-- Python `int(s)` on the string shapes this program feeds it: strip
whitespace, then an optional sign followed by one or more decimal digits;
anything else raises `ValueError`, modelled as `Except.error`. -/
def pyInt (s : String) : Except String Int :=
  match (pyStrip s).data with
  | [] => .error ("invalid int literal: " ++ s)
  | c :: rest =>
    if c = '-' then
      if rest ≠ [] ∧ rest.all Char.isDigit then .ok (-(digitsVal rest : Int))
      else .error ("invalid int literal: " ++ s)
    else if c = '+' then
      if rest ≠ [] ∧ rest.all Char.isDigit then .ok (digitsVal rest : Int)
      else .error ("invalid int literal: " ++ s)
    else
      if (c :: rest).all Char.isDigit then .ok (digitsVal (c :: rest) : Int)
      else .error ("invalid int literal: " ++ s)

/-! ### The page-specification scanner of `process_folder`

The source parses the comma-separated token list with a `while` loop over
an index `i`, entering a sub-loop when a token contains `(` and leaving it
at the first token containing `)`.  That left-to-right scan is embedded as
a fold with an explicit "currently open group" state. -/

/-- Parser state: page items emitted so far, plus the open group when the
scan is between a token containing `(` and one containing `)`. -/
structure ParseState where
  acc : List PageItem
  cur : Option (List Int)
deriving DecidableEq, Repr

/-- One token step of the page-number scan in `process_folder`.  Outside a
group: a stripped token containing `(` opens a group seeded with the
token's numeric content (if any); an empty token is skipped; any other
token is a single page.  Inside a group: a raw token containing `)`
closes the group, appending the token's numeric content (if any); any
other token is converted with `int()` and appended to the group. -/
def parseStep (st : ParseState) (tok : String) : Except String ParseState :=
  match st.cur with
  | some g =>
    if pyContains tok ')' then
      let lp := pyStrip (pyRemoveChar ')' tok)
      if lp = "" then .ok ⟨st.acc ++ [.group g], none⟩
      else do
        let v ← pyInt lp
        .ok ⟨st.acc ++ [.group (g ++ [v])], none⟩
    else do
      let v ← pyInt (pyStrip tok)
      .ok ⟨st.acc, some (g ++ [v])⟩
  | none =>
    let p := pyStrip tok
    if pyContains p '(' then
      let fp := pyStrip (pyRemoveChar '(' p)
      if fp = "" then .ok ⟨st.acc, some []⟩
      else do
        let v ← pyInt fp
        .ok ⟨st.acc, some [v]⟩
    else if p = "" then .ok st
    else do
      let v ← pyInt p
      .ok ⟨st.acc ++ [.single v], none⟩

/-- Scan a token list.  When the input ends while a group is still open,
the source's `while i < len(parts)` guard simply falls through and the
partially built group is appended, so the open group is emitted as-is. -/
def parseParts (parts : List String) : Except String (List PageItem) := do
  let st ← parts.foldlM parseStep ⟨[], none⟩
  match st.cur with
  | some g => .ok (st.acc ++ [.group g])
  | none => .ok st.acc

/-- The page-specification reader of `process_folder`: strip the file
content, drop blank lines and `#` comment lines, join the remaining lines
with spaces, split on commas and scan the tokens. -/
def parse_page_numbers (content : String) : Except String (List PageItem) :=
  let c := pyStrip content
  let lines := (pySplit '\n' c).filter
    (fun l => pyStrip l ≠ "" && !(startsWithHash (pyStrip l)))
  let joined := joinWith " " lines
  parseParts (pySplit ',' joined)

/-! ### MD5 (`hashlib.md5`), RFC 1321

The record identity embeds a truncated, upper-cased MD5 hex digest, so the
digest function is embedded in full: padding, little-endian word assembly,
the 64-step compression, and hex formatting of the 16 digest bytes.
Words are naturals reduced modulo `2^32`. -/

/-- Reduce to a 32-bit word. -/
def w32 (n : Nat) : Nat := n % 4294967296

/-- Bitwise complement on 32-bit words. -/
def not32 (x : Nat) : Nat := Nat.xor x 4294967295

/-- Left rotation of a 32-bit word by `s` bits. -/
def rotl32 (x s : Nat) : Nat :=
  w32 (Nat.lor (w32 (Nat.shiftLeft x s)) (Nat.shiftRight x (32 - s)))

/-- The 64 MD5 sine-derived constants `T[i]`. -/
def md5K : List Nat :=
  [0xd76aa478, 0xe8c7b756, 0x242070db, 0xc1bdceee,
   0xf57c0faf, 0x4787c62a, 0xa8304613, 0xfd469501,
   0x698098d8, 0x8b44f7af, 0xffff5bb1, 0x895cd7be,
   0x6b901122, 0xfd987193, 0xa679438e, 0x49b40821,
   0xf61e2562, 0xc040b340, 0x265e5a51, 0xe9b6c7aa,
   0xd62f105d, 0x02441453, 0xd8a1e681, 0xe7d3fbc8,
   0x21e1cde6, 0xc33707d6, 0xf4d50d87, 0x455a14ed,
   0xa9e3e905, 0xfcefa3f8, 0x676f02d9, 0x8d2a4c8a,
   0xfffa3942, 0x8771f681, 0x6d9d6122, 0xfde5380c,
   0xa4beea44, 0x4bdecfa9, 0xf6bb4b60, 0xbebfbc70,
   0x289b7ec6, 0xeaa127fa, 0xd4ef3085, 0x04881d05,
   0xd9d4d039, 0xe6db99e5, 0x1fa27cf8, 0xc4ac5665,
   0xf4292244, 0x432aff97, 0xab9423a7, 0xfc93a039,
   0x655b59c3, 0x8f0ccc92, 0xffeff47d, 0x85845dd1,
   0x6fa87e4f, 0xfe2ce6e0, 0xa3014314, 0x4e0811a1,
   0xf7537e82, 0xbd3af235, 0x2ad7d2bb, 0xeb86d391]

/-- The per-step left-rotation amounts. -/
def md5S : List Nat :=
  [7, 12, 17, 22, 7, 12, 17, 22, 7, 12, 17, 22, 7, 12, 17, 22,
   5, 9, 14, 20, 5, 9, 14, 20, 5, 9, 14, 20, 5, 9, 14, 20,
   4, 11, 16, 23, 4, 11, 16, 23, 4, 11, 16, 23, 4, 11, 16, 23,
   6, 10, 15, 21, 6, 10, 15, 21, 6, 10, 15, 21, 6, 10, 15, 21]

/-- The round function applied at step `i`. -/
def md5F (i b c d : Nat) : Nat :=
  if i < 16 then Nat.lor (Nat.land b c) (Nat.land (not32 b) d)
  else if i < 32 then Nat.lor (Nat.land b d) (Nat.land c (not32 d))
  else if i < 48 then Nat.xor b (Nat.xor c d)
  else Nat.xor c (Nat.lor b (not32 d))

/-- Message word index used at step `i`. -/
def md5G (i : Nat) : Nat :=
  if i < 16 then i
  else if i < 32 then (5 * i + 1) % 16
  else if i < 48 then (3 * i + 5) % 16
  else (7 * i) % 16

/-- One of the 64 compression steps on the state `(a, b, c, d)` with the
16-word message block `m`. -/
def md5Step (m : List Nat) (st : Nat × Nat × Nat × Nat) (i : Nat) :
    Nat × Nat × Nat × Nat :=
  match st with
  | (a, b, c, d) =>
    let fv := w32 (md5F i b c d + a + md5K.getD i 0 + m.getD (md5G i) 0)
    (d, w32 (b + rotl32 fv (md5S.getD i 0)), b, c)

/-- Process one 512-bit block: run the 64 steps and add the result to the
incoming state. -/
def md5Block (st : Nat × Nat × Nat × Nat) (m : List Nat) :
    Nat × Nat × Nat × Nat :=
  match (List.range 64).foldl (md5Step m) st with
  | (a, b, c, d) => (w32 (st.1 + a), w32 (st.2.1 + b), w32 (st.2.2.1 + c),
      w32 (st.2.2.2 + d))

/-- Little-endian byte serialization of `n` on `k` bytes. -/
def leBytes : Nat → Nat → List Nat
  | 0, _ => []
  | k + 1, n => (n % 256) :: leBytes k (n / 256)

/-- MD5 padding: a `0x80` byte, zeros up to 56 modulo 64, then the bit
length on 8 little-endian bytes. -/
def md5Pad (msg : List Nat) : List Nat :=
  let len := msg.length
  msg ++ [0x80] ++ List.replicate ((120 - (len + 1) % 64) % 64) 0 ++
    leBytes 8 ((8 * len) % 18446744073709551616)

/-- Assemble bytes into little-endian 32-bit words, four bytes at a time. -/
def bytesToWords : List Nat → List Nat
  | b0 :: b1 :: b2 :: b3 :: rest =>
    (b0 + 256 * b1 + 65536 * b2 + 16777216 * b3) :: bytesToWords rest
  | _ => []

/-- Fold the compression over consecutive 64-byte blocks. -/
def md5Blocks : Nat × Nat × Nat × Nat → List Nat → Nat × Nat × Nat × Nat
  | st, [] => st
  | st, b :: rest =>
    md5Blocks (md5Block st (bytesToWords ((b :: rest).take 64))) (rest.drop 63)
termination_by _ l => l.length
decreasing_by
  simp only [List.length_drop, List.length_cons]
  omega

/-- The MD5 initial state. -/
def md5Init : Nat × Nat × Nat × Nat :=
  (0x67452301, 0xefcdab89, 0x98badcfe, 0x10325476)

/-- The 16 digest bytes of a byte message. -/
def md5Digest (msg : List Nat) : List Nat :=
  match md5Blocks md5Init (md5Pad msg) with
  | (a, b, c, d) => leBytes 4 a ++ leBytes 4 b ++ leBytes 4 c ++ leBytes 4 d

/-- Lowercase hexadecimal digit character. -/
def hexDigitChar (n : Nat) : Char :=
  if n < 10 then Char.ofNat (48 + n) else Char.ofNat (87 + n)

/-- Two lowercase hex characters of one byte. -/
def byteHex (b : Nat) : List Char := [hexDigitChar (b / 16), hexDigitChar (b % 16)]

/-- Python `hashlib.md5(bytes).hexdigest()` as a character list. -/
def md5Hex (msg : List Nat) : List Char := ((md5Digest msg).map byteHex).flatten

/-- UTF-8 encoding of one character, as used by Python `str.encode()`. -/
def utf8Bytes (c : Char) : List Nat :=
  let n := c.toNat
  if n < 128 then [n]
  else if n < 2048 then [192 + n / 64, 128 + n % 64]
  else if n < 65536 then [224 + n / 4096, 128 + n / 64 % 64, 128 + n % 64]
  else [240 + n / 262144, 128 + n / 4096 % 64, 128 + n / 64 % 64, 128 + n % 64]

/-- Python `s.encode()`: UTF-8 bytes of a string. -/
def strBytes (s : String) : List Nat := (s.data.map utf8Bytes).flatten

/-- ASCII uppercase conversion of one character, the relevant case of
Python `str.upper()` for hex digests. -/
def asciiUpper (c : Char) : Char :=
  if 'a' ≤ c && c ≤ 'z' then Char.ofNat (c.toNat - 32) else c

/-- Python `.upper()` on a character list (ASCII case). -/
def pyUpper (l : List Char) : List Char := l.map asciiUpper

/-! ### JSON serialization (`json.dumps` with default options) -/

/-- Four lowercase hex digits of a code unit, as in `\u%04x`. -/
def hex4 (n : Nat) : List Char :=
  [hexDigitChar (n / 4096 % 16), hexDigitChar (n / 256 % 16),
   hexDigitChar (n / 16 % 16), hexDigitChar (n % 16)]

/-- Escaping of one character inside a JSON string by `json.dumps` with its
defaults (`ensure_ascii=True`): the two-character escapes, `\uXXXX` for
other characters outside `0x20`–`0x7e`, surrogate pairs beyond the basic
plane, and the character itself otherwise. -/
def jsonEscapeChar (c : Char) : List Char :=
  if c = '"' then ['\\', '"']
  else if c = '\\' then ['\\', '\\']
  else if c = '\x08' then ['\\', 'b']
  else if c = '\x0c' then ['\\', 'f']
  else if c = '\n' then ['\\', 'n']
  else if c = '\r' then ['\\', 'r']
  else if c = '\t' then ['\\', 't']
  else if c.toNat < 32 then '\\' :: 'u' :: hex4 c.toNat
  else if c.toNat < 127 then [c]
  else if c.toNat < 65536 then '\\' :: 'u' :: hex4 c.toNat
  else
    let v := c.toNat - 65536
    '\\' :: 'u' :: hex4 (55296 + v / 1024) ++ '\\' :: 'u' :: hex4 (56320 + v % 1024)

/-- JSON string literal of a Lean string. -/
def jsonString (s : String) : String :=
  ⟨'"' :: (s.data.map jsonEscapeChar).flatten ++ ['"']⟩

/-- JSON array from already serialized elements, with the default `", "`
item separator used by `json.dumps`. -/
def jsonArray (elems : List String) : String :=
  "[" ++ joinWith ", " elems ++ "]"

/-- Python `json.dumps(v)` for an array of arrays of strings, which is the
only shape the program serializes. -/
def json_dumps (v : List (List String)) : String :=
  jsonArray (v.map (fun row => jsonArray (row.map jsonString)))

/-- Per-character quote doubling, the unit of Python
`s.replace("'", "''")`. -/
def dupQuote (c : Char) : List Char :=
  if c = '\'' then ['\'', '\''] else [c]

/-- Python `s.replace("'", "''")`: double every single-quote character. -/
def escape_single_quotes (s : String) : String :=
  ⟨(s.data.map dupQuote).flatten⟩

/-! ### The extractor methods -/

/-- Source method `format_table_data`: empty list for a falsy argument,
otherwise the headers as first row followed by the rows. -/
def format_table_data : Option TableData → List (List String)
  | none => []
  | some td => [td.headers] ++ td.rows

/-- Source method `merge_table_data`: `None` on an empty list, the first
table itself for a one-element list, and otherwise the first table's name
and headers over the concatenation of every table's rows. -/
def merge_table_data : List TableData → Option TableData
  | [] => none
  | [t] => some t
  | t1 :: t2 :: ts =>
    some { table_name := t1.table_name, headers := t1.headers,
           rows := ((t1 :: t2 :: ts).map TableData.rows).flatten }

/-- Source method `generate_hash` (defined but never called by the
pipeline): MD5 of `"{table_name}_{page_number}_{timestamp}"`, truncated to
20 hex characters and upper-cased.  The wall-clock reading
`datetime.now().timestamp()` is passed in as a string. -/
def generate_hash (table_name : String) (page_number : String)
    (now_ts : String) : String :=
  ⟨pyUpper ((md5Hex (strBytes
      (table_name ++ "_" ++ page_number ++ "_" ++ now_ts))).take 20)⟩

/-- The truncated digest component of the hash actually emitted by
`generate_sql_insert`: `md5(str(page_number)).hexdigest()[:8].upper()`. -/
def sql_hash_digest (page_number : String) : String :=
  ⟨pyUpper ((md5Hex (strBytes page_number)).take 8)⟩

/-- The identity hash emitted by `generate_sql_insert`:
`f"BMR_B{exp_batch_no}_P{page_number}_{digest}"`. -/
def sql_hash_value (exp_batch_no : Int) (page_number : String) : String :=
  "BMR_B" ++ toString exp_batch_no ++ "_P" ++ page_number ++ "_" ++
    sql_hash_digest page_number

/-- Source method `generate_sql_insert`.  `page_number` is the page
reference (Python formats ints and strings identically in the f-string and
in `str()`), and `created_on` is the `datetime.now().strftime(...)`
reading, passed in as an input.  Returns `none` for a falsy
`table_data`. -/
def generate_sql_insert (table_data : Option TableData)
    (page_number : String) (exp_id : Int) (exp_batch_no : Int)
    (created_on : String) : Option String :=
  match table_data with
  | none => none
  | some td =>
    let table_name := td.table_name
    let table_data_json :=
      escape_single_quotes (json_dumps (format_table_data (some td)))
    let hash_value := sql_hash_value exp_batch_no page_number
    let table_type := "Checklist"
    let step_name := "Equipment-Calibration-Check"
    some ("INSERT INTO experimenttablerecord \n(exp_id, exp_batch_no, exp_step_name, table_name, data_source, investigation_method, table_data, created_on, hash, isDeleted, table_type) \nVALUES ("
      ++ toString exp_id ++ ", " ++ toString exp_batch_no ++ ", '"
      ++ step_name ++ "', '" ++ table_name ++ "', 'BMR-PDF-Scan', NULL,\n '"
      ++ table_data_json ++ "',\n '" ++ created_on ++ "', '" ++ hash_value
      ++ "', 0, '" ++ table_type ++ "');")

/-! ### Orchestration (`process_all_pages`, `process_folder`)

The rasterizer (`extract_page_as_image`, built on `pdf2image`) and the
recognizer (`extract_table_from_image`, built on the Gemini API) are the
external collaborators; they are parameters returning `Option` values.  A
`none` models both "no image returned" and the caught recognition
failures, each of which makes the source skip the page with `continue`. -/

/-- Page reference of a group, `f"{page_item[0]}-{page_item[-1]}"`.  The
source only evaluates this for a group that produced at least one table,
which a group with no pages never does, so the defaults for the empty list
are unreachable there. -/
def group_page_reference (pages : List Int) : String :=
  toString (pages.headD 0) ++ "-" ++ toString (pages.getLastD 0)

/-- The body of the `for page_item in self.page_numbers` loop of
`process_all_pages`, for one page item: rasterize and recognize each page,
skipping failed pages; give up on the item (`none`) when no page yielded a
table; otherwise merge and encode.  Totality of this function models the
source's per-item `try`/`except`: resolving a unit never raises to the
caller. -/
def process_page_item {α : Type} (raster : Int → Option α)
    (recog : α → Option TableData) (created_on : String) :
    PageItem → Option String
  | .group pages =>
    let table_list := pages.filterMap (fun p => (raster p).bind recog)
    if table_list.isEmpty then none
    else
      match merge_table_data table_list with
      | none => none
      | some merged =>
        generate_sql_insert (some merged) (group_page_reference pages)
          46 1 created_on
  | .single p =>
    match (raster p).bind recog with
    | none => none
    | some td => generate_sql_insert (some td) (toString p) 46 1 created_on

/-- Source method `process_all_pages`: the statements collected over the
page items, in order.  `process_all_pages` calls `generate_sql_insert`
without `exp_id`/`exp_batch_no` arguments, so the Python defaults 46 and 1
are always used (see `process_page_item`). -/
def process_all_pages {α : Type} (raster : Int → Option α)
    (recog : α → Option TableData) (created_on : String)
    (page_numbers : List PageItem) : List String :=
  page_numbers.filterMap (process_page_item raster recog created_on)

/-- Source function `process_folder`, restricted to the per-document core:
each document is a `(name, page-spec text)` pair; a document whose spec
fails to parse is skipped (the `int()` `ValueError` is caught by the
per-document `except` and the loop continues), and a document whose
processing yields no statements produces no output artifact.  The result
lists one `(name, statements)` artifact per document that produced
statements. -/
def process_folder {α : Type} (raster : String → Int → Option α)
    (recog : α → Option TableData) (created_on : String)
    (docs : List (String × String)) : List (String × List String) :=
  docs.filterMap (fun doc =>
    match parse_page_numbers doc.2 with
    | .error _ => none
    | .ok items =>
      let stmts := process_all_pages (raster doc.1) recog created_on items
      if stmts.isEmpty then none else some (doc.1, stmts))

/-! ### Auxiliary lemmas -/

/-- Little-endian serialization always yields the requested byte count. -/
theorem leBytes_length : ∀ (k n : Nat), (leBytes k n).length = k
  | 0, _ => rfl
  | k + 1, n => by simp [leBytes, leBytes_length k]

/-- The MD5 digest is always 16 bytes long. -/
theorem md5Digest_length (msg : List Nat) : (md5Digest msg).length = 16 := by
  unfold md5Digest
  rcases md5Blocks md5Init (md5Pad msg) with ⟨a, b, c, d⟩
  simp [leBytes_length]

/-- Hex expansion doubles the length of a byte list. -/
theorem flatten_map_byteHex_length :
    ∀ l : List Nat, ((l.map byteHex).flatten).length = 2 * l.length
  | [] => rfl
  | b :: rest => by
    rw [List.map_cons, List.flatten_cons, List.length_append,
      flatten_map_byteHex_length rest, List.length_cons]
    have hb : (byteHex b).length = 2 := rfl
    omega

/-- An MD5 hex digest has 32 characters. -/
theorem md5Hex_length (msg : List Nat) : (md5Hex msg).length = 32 := by
  unfold md5Hex
  rw [flatten_map_byteHex_length, md5Digest_length]

/-- The truncated digest inside the SQL hash always has 8 characters. -/
theorem sql_hash_digest_length (p : String) :
    (sql_hash_digest p).data.length = 8 := by
  simp [sql_hash_digest, pyUpper, md5Hex_length]

/-- Shared content of `merge_table_data` on a non-empty input: it
succeeds, takes name and headers from the first table, and concatenates
all rows in input order. -/
theorem merge_table_data_spec (ts : List TableData) (h : ts ≠ []) :
    ∃ m, merge_table_data ts = some m ∧
      m.table_name = (ts.head h).table_name ∧
      m.headers = (ts.head h).headers ∧
      m.rows = (ts.map TableData.rows).flatten := by
  match ts with
  | [] => exact absurd rfl h
  | [t] => exact ⟨t, rfl, rfl, rfl, by simp [merge_table_data]⟩
  | t1 :: t2 :: rest => exact ⟨_, rfl, rfl, rfl, rfl⟩

/-- One doubled character is never shorter than the original. -/
theorem dupQuote_length_ge (c : Char) : 1 ≤ (dupQuote c).length := by
  by_cases hc : c = '\'' <;> simp [dupQuote, hc]

/-- Quote doubling never shortens a string. -/
theorem dupQuote_flatten_length_ge :
    ∀ l : List Char, l.length ≤ ((l.map dupQuote).flatten).length
  | [] => Nat.le_refl 0
  | c :: rest => by
    rw [List.map_cons, List.flatten_cons, List.length_append, List.length_cons]
    have h1 := dupQuote_length_ge c
    have h2 := dupQuote_flatten_length_ge rest
    omega

/-- Quote doubling strictly lengthens a string containing a quote. -/
theorem dupQuote_flatten_length_gt (l : List Char) (h : '\'' ∈ l) :
    l.length < ((l.map dupQuote).flatten).length := by
  induction l with
  | nil => cases h
  | cons c rest ih =>
    rw [List.map_cons, List.flatten_cons, List.length_append, List.length_cons]
    rcases List.mem_cons.1 h with hc | hm
    · have hq : (dupQuote c).length = 2 := by rw [← hc]; rfl
      have h2 := dupQuote_flatten_length_ge rest
      omega
    · have h1 := dupQuote_length_ge c
      have h2 := ih hm
      omega

/-! ### Example collaborator oracles used by concrete witnesses -/

/-- Example recognizer output, yielding one distinct row per page. -/
def exRecog : Int → Option TableData :=
  fun p => some ⟨"Line Clearance Checklist",
    ["Equipment Name/ Instrument name", "ID no.", "Due date of Calibration"],
    [["E" ++ toString p, "I", "D"]]⟩

/-- Example rasterizer that succeeds on every page. -/
def exRasterOk : Int → Option Int := fun p => some p

/-- Example rasterizer that fails on page 7 and succeeds elsewhere. -/
def exRasterSkip : Int → Option Int :=
  fun p => if p = 7 then none else some p

/-! ### Claim theorems -/

/-- Claim C1.  For every non-empty list of extracted tables, `merge_table_data`
returns a merged table whose `table_name` and `headers` are those of the
first element and whose `rows` are the concatenation, in input order, of
every element's rows; a one-element list in particular yields a table with
exactly the fields of that element. -/
theorem merge_first_name_headers_rows_concat (ts : List TableData)
    (h : ts ≠ []) :
    ∃ m, merge_table_data ts = some m ∧
      m.table_name = (ts.head h).table_name ∧
      m.headers = (ts.head h).headers ∧
      m.rows = (ts.map TableData.rows).flatten :=
  merge_table_data_spec ts h

/-- Witness for C1 at a concrete two-element list. -/
theorem merge_first_name_headers_rows_concat_witness :
    ([(⟨"A", ["h1", "h2"], [["r1", "r2"]]⟩ : TableData),
      ⟨"B", ["g1"], [["r3", "r4"], ["r5", "r6"]]⟩] ≠ []) ∧
    ∃ m, merge_table_data
        [(⟨"A", ["h1", "h2"], [["r1", "r2"]]⟩ : TableData),
         ⟨"B", ["g1"], [["r3", "r4"], ["r5", "r6"]]⟩] = some m ∧
      m.table_name = "A" ∧ m.headers = ["h1", "h2"] ∧
      m.rows = [["r1", "r2"], ["r3", "r4"], ["r5", "r6"]] := by
  refine ⟨by decide, ?_⟩
  obtain ⟨m, h1, h2, h3, h4⟩ := merge_first_name_headers_rows_concat
    [⟨"A", ["h1", "h2"], [["r1", "r2"]]⟩,
     ⟨"B", ["g1"], [["r3", "r4"], ["r5", "r6"]]⟩] (by decide)
  exact ⟨m, h1, h2, h3, h4⟩

/-- Claim C6.  Parsing a well-formed specification yields page units mirroring
token order, with parenthesized spans as groups preserving the page order
as written, on both cited example inputs. -/
theorem parse_examples_token_order :
    parse_page_numbers "1,(2,3),4"
      = .ok [.single 1, .group [2, 3], .single 4] ∧
    parse_page_numbers "10,(160,161),345,(348,349,350)"
      = .ok [.single 10, .group [160, 161], .single 345,
             .group [348, 349, 350]] :=
  ⟨rfl, rfl⟩

/-- Claim C3 counterexample.  Parsing the unterminated group `"(1,2"` does NOT
fail: the scan reaches the end of input with the group still open and
emits it, returning `[Group([1,2])]` rather than an error. -/
theorem unterminated_group_accepted_cex :
    parse_page_numbers "(1,2" = .ok [.group [1, 2]] := rfl

/-- Claim C3 amended.  When the token scan ends with a group still open, the
parser does not fail: the open group is appended to the output as-is. -/
theorem open_group_emitted_at_end (parts : List String)
    (acc : List PageItem) (g : List Int)
    (h : parts.foldlM parseStep ⟨[], none⟩ = .ok ⟨acc, some g⟩) :
    parseParts parts = .ok (acc ++ [.group g]) := by
  unfold parseParts
  rw [h]
  rfl

/-- Witness for the amended C3 on the tokens of `"(1,2"`. -/
theorem open_group_emitted_at_end_witness :
    ((["(1", "2"] : List String).foldlM parseStep ⟨[], none⟩
        = .ok ⟨[], some [1, 2]⟩) ∧
    parseParts ["(1", "2"] = .ok [.group [1, 2]] :=
  ⟨rfl, open_group_emitted_at_end ["(1", "2"] [] [1, 2] rfl⟩

/-- Claim C7 counterexample.  A zero-page group is not a parse error: the
parenthesized empty token pair `"(,)"` parses to a `Group` with no
pages. -/
theorem empty_group_emitted_cex :
    parse_page_numbers "(,)" = .ok [.group []] := rfl

/-- Claim C7 amended.  The parser can emit empty groups: when the opening and
closing tokens carry no numeric content and no tokens lie between them
(with or without a closing token at all), the result is `[Group([])]`. -/
theorem parser_emits_empty_groups :
    parse_page_numbers "(" = .ok [.group []] ∧
    parse_page_numbers "( , )" = .ok [.group []] :=
  ⟨rfl, rfl⟩

/-- Claim C4.  For a page group in which some pages fail to rasterize or
recognize, resolving the unit (which is total, modelling the source's
per-item exception absorption: it never raises to the caller) merges
exactly the successfully recognized pages' tables, their rows concatenated
in the original page order, and encodes that merged table. -/
theorem group_skips_failed_pages_merges_rest {α : Type}
    (raster : Int → Option α) (recog : α → Option TableData)
    (created_on : String) (pages : List Int)
    (h : pages.filterMap (fun p => (raster p).bind recog) ≠ []) :
    ∃ merged,
      merge_table_data (pages.filterMap (fun p => (raster p).bind recog))
        = some merged ∧
      merged.rows = ((pages.filterMap (fun p => (raster p).bind recog)).map
        TableData.rows).flatten ∧
      process_page_item raster recog created_on (.group pages)
        = generate_sql_insert (some merged) (group_page_reference pages)
            46 1 created_on := by
  obtain ⟨m, hm, _, _, hr⟩ := merge_table_data_spec _ h
  refine ⟨m, hm, hr, ?_⟩
  have hne : ¬((pages.filterMap (fun p => (raster p).bind recog)).isEmpty
      = true) := by
    simp only [List.isEmpty_iff]
    exact h
  simp only [process_page_item]
  rw [if_neg hne, hm]

/-- Witness for C4: the middle page of the group `[6, 7, 8]` fails to
rasterize and the unit still resolves to the merge of pages 6 and 8. -/
theorem group_skips_failed_pages_merges_rest_witness :
    (([6, 7, 8].filterMap (fun p => (exRasterSkip p).bind exRecog)) ≠ []) ∧
    ∃ merged,
      merge_table_data
          ([6, 7, 8].filterMap (fun p => (exRasterSkip p).bind exRecog))
        = some merged ∧
      merged.rows = (([6, 7, 8].filterMap
        (fun p => (exRasterSkip p).bind exRecog)).map TableData.rows).flatten ∧
      process_page_item exRasterSkip exRecog "2026-01-01 00:00:00"
          (.group [6, 7, 8])
        = generate_sql_insert (some merged) (group_page_reference [6, 7, 8])
            46 1 "2026-01-01 00:00:00" :=
  ⟨by decide, group_skips_failed_pages_merges_rest exRasterSkip exRecog
    "2026-01-01 00:00:00" [6, 7, 8] (by decide)⟩

/-- Claim C9.  A document whose page specification fails to parse (such as one
holding a non-numeric token) is skipped with no output artifact, and every
other document of the batch is processed exactly as if the bad document
were absent. -/
theorem bad_spec_skips_document_batch_continues {α : Type}
    (raster : String → Int → Option α) (recog : α → Option TableData)
    (created_on : String) (docs1 docs2 : List (String × String))
    (n s e : String) (h : parse_page_numbers s = .error e) :
    process_folder raster recog created_on (docs1 ++ (n, s) :: docs2)
      = process_folder raster recog created_on docs1
        ++ process_folder raster recog created_on docs2 ∧
    process_folder raster recog created_on [(n, s)] = [] := by
  constructor <;>
    simp [process_folder, List.filterMap_append, List.filterMap_cons, h]

/-- Witness for C9: the spec `"1,x,2"` fails to parse, its document
contributes no artifact, and the surrounding documents are processed. -/
theorem bad_spec_skips_document_batch_continues_witness :
    (parse_page_numbers "1,x,2" = .error "invalid int literal: x") ∧
    (process_folder (fun _ => exRasterOk) exRecog "2026-01-01 00:00:00"
        ([("doc1", "5")] ++ ("doc2", "1,x,2") :: [("doc3", "6")])
      = process_folder (fun _ => exRasterOk) exRecog "2026-01-01 00:00:00"
          [("doc1", "5")]
        ++ process_folder (fun _ => exRasterOk) exRecog "2026-01-01 00:00:00"
          [("doc3", "6")] ∧
     process_folder (fun _ => exRasterOk) exRecog "2026-01-01 00:00:00"
        [("doc2", "1,x,2")] = []) :=
  ⟨rfl, bad_spec_skips_document_batch_continues (fun _ => exRasterOk) exRecog
    "2026-01-01 00:00:00" [("doc1", "5")] [("doc3", "6")] "doc2" "1,x,2"
    "invalid int literal: x" rfl⟩

/-- Claim C2 counterexample.  Two distinct page units processed in one batch
run, whose merged tables differ in content, can share the same page
reference, and then the emitted identity hashes coincide: the hash is
computed from the batch number and page reference alone, never from the
merged content. -/
theorem hash_ignores_content_cex :
    (PageItem.group [1, 2] ≠ PageItem.group [1, 5, 2]) ∧
    merge_table_data ([1, 2].filterMap (fun p => (exRasterOk p).bind exRecog))
      ≠ merge_table_data
          ([1, 5, 2].filterMap (fun p => (exRasterOk p).bind exRecog)) ∧
    group_page_reference [1, 2] = group_page_reference [1, 5, 2] ∧
    sql_hash_value 1 (group_page_reference [1, 2])
      = sql_hash_value 1 (group_page_reference [1, 5, 2]) ∧
    (process_all_pages exRasterOk exRecog "2026-01-01 00:00:00"
        [.group [1, 2], .group [1, 5, 2]]).length = 2 :=
  ⟨by decide, by decide, rfl, rfl, rfl⟩

/-- Claim C2 amended.  Within one batch (one `exp_batch_no`), the emitted
identity hashes of two records are distinct exactly when their page
references differ: distinct page-reference strings always give distinct
hashes (the digest block has fixed length 8, so the reference is
recoverable from the hash). -/
theorem hash_distinct_for_distinct_page_refs (b : Int) (p1 p2 : String)
    (h : p1 ≠ p2) : sql_hash_value b p1 ≠ sql_hash_value b p2 := by
  intro heq
  apply h
  have e1 : (sql_hash_value b p1).data
      = ("BMR_B" ++ toString b ++ "_P").data
        ++ (p1.data ++ ('_' :: (sql_hash_digest p1).data)) := by
    simp [sql_hash_value, String.data_append, List.append_assoc]
  have e2 : (sql_hash_value b p2).data
      = ("BMR_B" ++ toString b ++ "_P").data
        ++ (p2.data ++ ('_' :: (sql_hash_digest p2).data)) := by
    simp [sql_hash_value, String.data_append, List.append_assoc]
  have hd := congrArg String.data heq
  rw [e1, e2] at hd
  have h3 := List.append_cancel_left hd
  have hlen : ('_' :: (sql_hash_digest p1).data).length
      = ('_' :: (sql_hash_digest p2).data).length := by
    rw [List.length_cons, List.length_cons, sql_hash_digest_length,
      sql_hash_digest_length]
  exact String.ext (List.append_inj' h3 hlen).1

/-- Witness for the amended C2 at two concrete distinct page
references. -/
theorem hash_distinct_for_distinct_page_refs_witness :
    sql_hash_value 1 "1" ≠ sql_hash_value 1 "1-2" :=
  hash_distinct_for_distinct_page_refs 1 "1" "1-2" (by decide)

/-- Claim C5.  The SQL statement emitted by `generate_sql_insert` embeds the
hash `sql_hash_value exp_batch_no page_reference` at a position
independent of the clock reading: two runs on the same inputs with
different `created_on` timestamps produce statements differing only in
the timestamp field and carrying the identical hash value. -/
theorem sql_hash_independent_of_clock (td : TableData) (p : String)
    (i b : Int) (t1 t2 : String) :
    ∃ pre mid post : String,
      generate_sql_insert (some td) p i b t1
        = some (pre ++ t1 ++ mid ++ sql_hash_value b p ++ post) ∧
      generate_sql_insert (some td) p i b t2
        = some (pre ++ t2 ++ mid ++ sql_hash_value b p ++ post) := by
  refine ⟨"INSERT INTO experimenttablerecord \n(exp_id, exp_batch_no, exp_step_name, table_name, data_source, investigation_method, table_data, created_on, hash, isDeleted, table_type) \nVALUES ("
      ++ toString i ++ ", " ++ toString b ++ ", '"
      ++ "Equipment-Calibration-Check" ++ "', '" ++ td.table_name
      ++ "', 'BMR-PDF-Scan', NULL,\n '"
      ++ escape_single_quotes (json_dumps (format_table_data (some td)))
      ++ "',\n '", "', '", "', 0, '" ++ "Checklist" ++ "');", ?_, ?_⟩ <;>
    simp only [generate_sql_insert, ← String.append_assoc]

/-- Claim C8.  The payload embedded in the statement is the JSON serialization
of the headers row followed by the data rows, with single quotes doubled;
and quote doubling rewrites every single quote of the serialized text
into two. -/
theorem payload_json_headers_then_rows_quotes_doubled (td : TableData)
    (p : String) (i b : Int) (t : String) :
    (∃ pre post : String,
        generate_sql_insert (some td) p i b t
          = some (pre
              ++ escape_single_quotes (json_dumps ([td.headers] ++ td.rows))
              ++ post)) ∧
    ∀ u v : String, escape_single_quotes (u ++ "'" ++ v)
        = escape_single_quotes u ++ "''" ++ escape_single_quotes v := by
  constructor
  · refine ⟨"INSERT INTO experimenttablerecord \n(exp_id, exp_batch_no, exp_step_name, table_name, data_source, investigation_method, table_data, created_on, hash, isDeleted, table_type) \nVALUES ("
        ++ toString i ++ ", " ++ toString b ++ ", '"
        ++ "Equipment-Calibration-Check" ++ "', '" ++ td.table_name
        ++ "', 'BMR-PDF-Scan', NULL,\n '",
      "',\n '" ++ t ++ "', '" ++ sql_hash_value b p ++ "', 0, '"
        ++ "Checklist" ++ "');", ?_⟩
    simp only [generate_sql_insert, format_table_data, ← String.append_assoc]
  · intro u v
    apply String.ext
    have hq : ("'" : String).data = ['\''] := rfl
    have hqq : ("''" : String).data = ['\'', '\''] := rfl
    simp [escape_single_quotes, String.data_append, List.map_append,
      List.flatten_append, dupQuote, hq, hqq]

/-- Claim C10.  The encoder's quote escaping covers only the JSON payload: the
`table_name` is spliced verbatim into its quoted SQL literal, so a name
containing a single quote is embedded with that quote undoubled (the
escaped form would necessarily differ from the embedded verbatim
form). -/
theorem table_name_embedded_unescaped (td : TableData) (p : String)
    (i b : Int) (t : String) (h : '\'' ∈ td.table_name.data) :
    (∃ pre post : String,
        generate_sql_insert (some td) p i b t
          = some (pre ++ "'" ++ td.table_name ++ "'" ++ post)) ∧
    escape_single_quotes td.table_name ≠ td.table_name := by
  constructor
  · refine ⟨"INSERT INTO experimenttablerecord \n(exp_id, exp_batch_no, exp_step_name, table_name, data_source, investigation_method, table_data, created_on, hash, isDeleted, table_type) \nVALUES ("
        ++ toString i ++ ", " ++ toString b ++ ", '"
        ++ "Equipment-Calibration-Check" ++ "', ",
      ", 'BMR-PDF-Scan', NULL,\n '"
        ++ escape_single_quotes (json_dumps (format_table_data (some td)))
        ++ "',\n '" ++ t ++ "', '" ++ sql_hash_value b p ++ "', 0, '"
        ++ "Checklist" ++ "');", ?_⟩
    have d1 : ("', '" : String) = "', " ++ "'" := rfl
    have d2 : ("', 'BMR-PDF-Scan', NULL,\n '" : String)
        = "'" ++ ", 'BMR-PDF-Scan', NULL,\n '" := rfl
    simp only [generate_sql_insert]
    rw [d1, d2]
    simp only [← String.append_assoc]
  · intro heq
    have hlen := congrArg (fun s : String => s.data.length) heq
    simp only [escape_single_quotes] at hlen
    have hgt := dupQuote_flatten_length_gt td.table_name.data h
    omega

/-- Witness for C10 with a table name containing a quote. -/
theorem table_name_embedded_unescaped_witness :
    ('\'' ∈ ("O'Brien Checklist" : String).data) ∧
    ((∃ pre post : String,
        generate_sql_insert
            (some ⟨"O'Brien Checklist", ["H"], [["r"]]⟩) "5" 46 1
            "2026-01-01 00:00:00"
          = some (pre ++ "'" ++ "O'Brien Checklist" ++ "'" ++ post)) ∧
      escape_single_quotes "O'Brien Checklist" ≠ "O'Brien Checklist") :=
  ⟨by decide, table_name_embedded_unescaped
    ⟨"O'Brien Checklist", ["H"], [["r"]]⟩ "5" 46 1 "2026-01-01 00:00:00"
    (by decide)⟩

end PdfTableExtractor

